import Mathlib

/-
Verification of the duration-resolution logic of
`src/server/scripts/simple_generate.py`.

Text is modelled as `List Char` (ASCII).  The three time-expression
regexes of `_extract_duration_hint_seconds` are embedded as explicit
matchers that reproduce the engine's behaviour on them: leftmost scan,
greedy quantifiers with backtracking, ordered alternation, word
boundaries, and non-overlapping successive matches.  Python float
arithmetic is modelled with ℚ, and `round` with round-half-to-even.
-/

namespace SimpleGenerate

/-- ASCII word character: the regex word class `[A-Za-z0-9_]`. -/
def isWordChar (c : Char) : Bool := c.isAlphanum || c = '_'

/-- ASCII whitespace: the regex space class. -/
def isSpaceChar (c : Char) : Bool :=
  c = ' ' || c = '\t' || c = '\n' || c = '\r' || c = Char.ofNat 11 || c = Char.ofNat 12

/-- ASCII lowercasing, as `text.lower()` acts on ASCII input. -/
def toLowerAscii (c : Char) : Char :=
  if 'A' ≤ c ∧ c ≤ 'Z' then Char.ofNat (c.toNat + 32) else c

def lowerText (s : List Char) : List Char := s.map toLowerAscii

/-- Numeric value of an ASCII digit. -/
def digitVal (c : Char) : Nat := c.toNat - 48

/-- A word boundary follows the last consumed (word) character iff the
next character is not a word character, or the text ends. -/
def boundaryAfter : List Char → Bool
  | [] => true
  | c :: _ => !isWordChar c

/-- Consume a maximal run of whitespace (greedy `\s*`); returns the run
length and the rest of the text. -/
def skipSpaces : List Char → Nat × List Char
  | [] => (0, [])
  | c :: cs =>
    if isSpaceChar c then
      let r := skipSpaces cs
      (r.1 + 1, r.2)
    else (0, c :: cs)

/-- Ordered alternation, each alternative followed by a word boundary:
the first alternative (in listed order) that is a prefix of the text and
is followed by a boundary wins; returns its length. -/
def matchAltBoundary : List (List Char) → List Char → Option Nat
  | [], _ => none
  | a :: rest, s =>
    if a.isPrefixOf s && boundaryAfter (s.drop a.length) then some a.length
    else matchAltBoundary rest s

def minuteUnits : List (List Char) :=
  [("m".toList), ("min".toList), ("mins".toList), ("minute".toList), ("minutes".toList)]

def secondUnits : List (List Char) :=
  [("s".toList), ("sec".toList), ("secs".toList), ("second".toList), ("seconds".toList)]

/-- Tail of the `mm:ss` pattern after the minute digits: `:[0-5]\d\b`.
`m` is the minute value, `nd` the number of minute digits consumed. -/
def mmssAfterDigits (m nd : Nat) (s : List Char) : Option (Nat × Nat) :=
  match s with
  | ':' :: d3 :: d4 :: rest =>
    if decide ('0' ≤ d3 ∧ d3 ≤ '5') && d4.isDigit && boundaryAfter rest then
      some (nd + 3, m * 60 + digitVal d3 * 10 + digitVal d4)
    else none
  | _ => none

/-- Match attempt for `\b(\d{1,2}):([0-5]\d)\b` at the head of `s`;
`prevW` says whether the preceding character is a word character (the
leading `\b` then fails).  Greedy `\d{1,2}` tries two digits first and
backtracks to one.  Returns (consumed length, seconds value). -/
def matchMMSS (prevW : Bool) (s : List Char) : Option (Nat × Nat) :=
  if prevW then none
  else
    match s with
    | [] => none
    | d1 :: rest1 =>
      if !d1.isDigit then none
      else
        match rest1 with
        | [] => mmssAfterDigits (digitVal d1) 1 []
        | d2 :: rest2 =>
          if d2.isDigit then
            match mmssAfterDigits (digitVal d1 * 10 + digitVal d2) 2 rest2 with
            | some r => some r
            | none => mmssAfterDigits (digitVal d1) 1 rest1
          else mmssAfterDigits (digitVal d1) 1 rest1

/-- Tail `\s*(?:s|sec|secs|second|seconds)\b` after some digits whose
value is `v`, with `k` characters already consumed. -/
def secAfterDigits (v k : Nat) (s : List Char) : Option (Nat × Nat) :=
  let sp := skipSpaces s
  match matchAltBoundary secondUnits sp.2 with
  | none => none
  | some ulen => some (k + sp.1 + ulen, v)

/-- The optional seconds group `(?:\s*(\d{1,2})\s*(?:s|sec|secs|second|seconds)\b)?`
of the minutes pattern (tried greedily; the caller skips it on failure). -/
def secOptional (s : List Char) : Option (Nat × Nat) :=
  let sp := skipSpaces s
  match sp.2 with
  | [] => none
  | d1 :: rest1 =>
    if !d1.isDigit then none
    else
      match rest1 with
      | [] => secAfterDigits (digitVal d1) (sp.1 + 1) []
      | d2 :: rest2 =>
        if d2.isDigit then
          match secAfterDigits (digitVal d1 * 10 + digitVal d2) (sp.1 + 2) rest2 with
          | some r => some r
          | none => secAfterDigits (digitVal d1) (sp.1 + 1) rest1
        else secAfterDigits (digitVal d1) (sp.1 + 1) rest1

/-- Tail of the minutes pattern after the minute digits:
`\s*(?:m|min|mins|minute|minutes)\b(?:\s*(\d{1,2})\s*(?:s|...)\b)?`. -/
def minAfterDigits (m nd : Nat) (s : List Char) : Option (Nat × Nat) :=
  let sp := skipSpaces s
  match matchAltBoundary minuteUnits sp.2 with
  | none => none
  | some ulen =>
    let consumed := nd + sp.1 + ulen
    match secOptional (sp.2.drop ulen) with
    | some r => some (consumed + r.1, m * 60 + r.2)
    | none => some (consumed, m * 60)

/-- Match attempt for the natural-language minutes pattern
`\b(\d{1,2})\s*(?:m|min|mins|minute|minutes)\b(?:\s*(\d{1,2})\s*(?:s|sec|secs|second|seconds)\b)?`. -/
def matchMIN (prevW : Bool) (s : List Char) : Option (Nat × Nat) :=
  if prevW then none
  else
    match s with
    | [] => none
    | d1 :: rest1 =>
      if !d1.isDigit then none
      else
        match rest1 with
        | [] => minAfterDigits (digitVal d1) 1 []
        | d2 :: rest2 =>
          if d2.isDigit then
            match minAfterDigits (digitVal d1 * 10 + digitVal d2) 2 rest2 with
            | some r => some r
            | none => minAfterDigits (digitVal d1) 1 rest1
          else minAfterDigits (digitVal d1) 1 rest1

/-- Match attempt for the bare-seconds pattern
`\b(\d{2,3})\s*(?:s|sec|secs|second|seconds)\b` (greedy `\d{2,3}`:
three digits tried first, backtracking to two). -/
def matchBARE (prevW : Bool) (s : List Char) : Option (Nat × Nat) :=
  if prevW then none
  else
    match s with
    | [] => none
    | d1 :: rest1 =>
      if !d1.isDigit then none
      else
        match rest1 with
        | [] => none
        | d2 :: rest2 =>
          if !d2.isDigit then none
          else
            match rest2 with
            | [] => secAfterDigits (digitVal d1 * 10 + digitVal d2) 2 []
            | d3 :: rest3 =>
              if d3.isDigit then
                match secAfterDigits (digitVal d1 * 100 + digitVal d2 * 10 + digitVal d3) 3 rest3 with
                | some r => some r
                | none => secAfterDigits (digitVal d1 * 10 + digitVal d2) 2 rest2
              else secAfterDigits (digitVal d1 * 10 + digitVal d2) 2 rest2

/-- The `for match in re.finditer(...)` loops of
`_extract_duration_hint_seconds`: positions are tried left to right;
a matched value in `[10, 600]` is returned; an out-of-range match is
skipped and scanning resumes after it (non-overlapping matches).
`fuel` only bounds the recursion (text length + 1 suffices, since every
step consumes at least one character). -/
def find_first_hint (m : Bool → List Char → Option (Nat × Nat)) :
    Nat → Bool → List Char → Option Nat
  | 0, _, _ => none
  | fuel + 1, prevW, s =>
    match m prevW s with
    | some r =>
      if 10 ≤ r.2 ∧ r.2 ≤ 600 then some r.2
      else
        find_first_hint m fuel
          (match (s.take r.1).getLast? with
           | some c => isWordChar c
           | none => prevW)
          (s.drop r.1)
    | none =>
      match s with
      | [] => none
      | c :: cs => find_first_hint m fuel (isWordChar c) cs

/-- One regex tier scanned over the (already lowercased) text. -/
def hintTier (m : Bool → List Char → Option (Nat × Nat)) (t : List Char) : Option Nat :=
  find_first_hint m (t.length + 1) false t

/-- `_extract_duration_hint_seconds` (lines 203-231): empty text yields
`None`; otherwise the lowercased text is scanned by the `mm:ss` tier,
then the natural-language minutes tier, then the bare-seconds tier. -/
def extract_duration_hint_seconds (text : List Char) : Option Nat :=
  if text = [] then none
  else
    match hintTier matchMMSS (lowerText text) with
    | some v => some v
    | none =>
      match hintTier matchMIN (lowerText text) with
      | some v => some v
      | none => hintTier matchBARE (lowerText text)

/-- Counting maximal runs of `[A-Za-z0-9']+` (the `re.findall` word
count); the flag records whether we are inside a run. -/
def countWordsAux : Bool → List Char → Nat
  | _, [] => 0
  | inRun, c :: cs =>
    if c.isAlphanum || c.toNat == 39 then
      (if inRun then 0 else 1) + countWordsAux true cs
    else countWordsAux false cs

def lyric_word_count (l : List Char) : Nat := countWordsAux false l

def sectionNames : List (List Char) :=
  [("verse".toList), ("chorus".toList), ("bridge".toList), ("hook".toList),
   ("pre-chorus".toList), ("intro".toList), ("outro".toList), ("refrain".toList)]

/-- First section name that is a prefix of the text (the alternatives
have pairwise distinct first letters, so at most one can match). -/
def firstPrefixLen : List (List Char) → List Char → Option Nat
  | [], _ => none
  | a :: rest, s => if a.isPrefixOf s then some a.length else firstPrefixLen rest s

/-- `[^\]]*\]`: consume up to and including the first `]`; fails if the
text has no `]`.  Returns the number of characters consumed. -/
def consumeToRBracket : List Char → Option Nat
  | [] => none
  | c :: cs =>
    if c = ']' then some 1
    else
      match consumeToRBracket cs with
      | some n => some (n + 1)
      | none => none

/-- Match attempt for `\s*\[(?:verse|chorus|bridge|hook|pre-chorus|intro|outro|refrain)[^\]]*\]`
at an anchor position (the `^` of the MULTILINE pattern). -/
def matchSection (s : List Char) : Option Nat :=
  let sp := skipSpaces s
  match sp.2 with
  | '[' :: s2 =>
    match firstPrefixLen sectionNames s2 with
    | none => none
    | some wlen =>
      match consumeToRBracket (s2.drop wlen) with
      | none => none
      | some m => some (sp.1 + 1 + wlen + m)
  | _ => none

/-- `len(re.findall(...))` for the section-marker pattern: `atStart`
says whether MULTILINE `^` holds at the current position (start of text
or just after a newline); matches are non-overlapping. -/
def countSections : Nat → Bool → List Char → Nat
  | 0, _, _ => 0
  | fuel + 1, atStart, s =>
    match s with
    | [] => 0
    | c :: cs =>
      if atStart then
        match matchSection s with
        | some n =>
          1 + countSections fuel
            (match (s.take n).getLast? with
             | some c2 => c2 == '\n'
             | none => false)
            (s.drop n)
        | none => countSections fuel (c == '\n') cs
      else countSections fuel (c == '\n') cs

def section_count (lyrics : List Char) : Nat :=
  countSections ((lowerText lyrics).length + 1) true (lowerText lyrics)

/-- Python's `round` on a float: round half to even. -/
def pyRound (q : ℚ) : ℤ :=
  if q - ((⌊q⌋ : ℤ) : ℚ) < 1 / 2 then ⌊q⌋
  else if 1 / 2 < q - ((⌊q⌋ : ℤ) : ℚ) then ⌊q⌋ + 1
  else if ⌊q⌋ % 2 = 0 then ⌊q⌋ else ⌊q⌋ + 1

def short_keywords : List (List Char) :=
  [("jingle".toList), ("sting".toList), ("bumper".toList), ("snippet".toList),
   ("short intro".toList), ("short outro".toList)]

def long_keywords : List (List Char) :=
  [("epic".toList), ("cinematic".toList), ("anthem".toList), ("extended".toList),
   ("progressive".toList), ("suite".toList), ("full length".toList), ("long build".toList)]

/-- Substring containment (Python's `needle in hay`). -/
def isSubstring (needle : List Char) : List Char → Bool
  | [] => needle.isEmpty
  | c :: cs => needle.isPrefixOf (c :: cs) || isSubstring needle cs

/-- `any(k in prompt_l for k in (...))`. -/
def contains_any (hay : List Char) (needles : List (List Char)) : Bool :=
  needles.any fun k => isSubstring k hay

/-- Lines 250-254: base estimate from lyric word count, section markers
and the instrumental flag. -/
def base_estimate (lyricWords sections : Nat) (instrumental : Bool) : ℚ :=
  if lyricWords > 0 then (lyricWords : ℚ) / 2.35 + 18 + (sections : ℚ) * 4
  else if instrumental then 95 else 75

/-- Lines 256-259: the two prompt-keyword adjustments. -/
def keyword_adjusted (promptL : List Char) (e : ℚ) : ℚ :=
  let e1 := if contains_any promptL short_keywords then e - 20 else e
  if contains_any promptL long_keywords then e1 + 30 else e1

/-- Line 264: `max(30, min(240, estimated_seconds))`. -/
def clamp_30_240 (n : ℤ) : ℤ := max 30 (min 240 n)

/-- The no-hint branch of `_estimate_duration_seconds` (lines 239-264). -/
def word_count_estimate_seconds (prompt lyrics : List Char) (instrumental : Bool) : ℤ :=
  let promptL := lowerText prompt
  let lyricWords := lyric_word_count lyrics
  let sections := section_count lyrics
  let adjusted := keyword_adjusted promptL (base_estimate lyricWords sections instrumental)
  let capped :=
    if isSubstring ("loop".toList) promptL && lyricWords == 0 then min adjusted 60 else adjusted
  clamp_30_240 (pyRound (capped / 5) * 5)

/-- `_estimate_duration_seconds` (lines 234-264): the hint is sought in
`f"{prompt}\n{lyrics}"`; a found hint is rounded to the nearest multiple
of 5 and clamped to `[10, 600]`, short-circuiting the word-count path. -/
def estimate_duration_seconds (prompt lyrics : List Char) (instrumental : Bool) : ℤ :=
  match extract_duration_hint_seconds (prompt ++ '\n' :: lyrics) with
  | some hint => max 10 (min 600 (pyRound ((hint : ℚ) / 5) * 5))
  | none => word_count_estimate_seconds prompt lyrics instrumental

/-- Provenance tag of the resolved duration (`duration_source`). -/
inductive DurationSource where
  | user
  | auto
  | audio_inferred
  | lm_cot
  | heuristic
deriving DecidableEq, Repr

/-- The duration-relevant inputs of `generate`.  `reference_audio` and
`src_audio` record the truthiness of the corresponding optional path
arguments; `lm_available` records `bool(llm_handler and
llm_handler.llm_initialized)`. -/
structure GenRequest where
  prompt : List Char
  lyrics : List Char
  instrumental : Bool
  duration : ℤ
  reference_audio : Bool
  src_audio : Bool
  lm_available : Bool

/-- The pair (`resolved_duration_seconds`, `duration_source`); the
unresolved state carries the `-1.0` sentinel. -/
structure Resolution where
  seconds : ℚ
  source : DurationSource
deriving DecidableEq

/-- Line 344: `input_lyrics = lyrics if lyrics and not instrumental else ""`. -/
def input_lyrics (req : GenRequest) : List Char :=
  if req.lyrics ≠ [] ∧ req.instrumental = false then req.lyrics else []

/-- Lines 346-366: pre-pipeline duration resolution.  A positive user
duration is taken verbatim; otherwise the sentinel `-1.0` is kept while
audio context or an initialized LM stage defers resolution, and only
failing both does the local heuristic produce a number. -/
def resolve_pre (req : GenRequest) : Resolution :=
  if 0 < req.duration then ⟨(req.duration : ℚ), .user⟩
  else if req.reference_audio || req.src_audio then ⟨-1, .audio_inferred⟩
  else if req.lm_available then ⟨-1, .lm_cot⟩
  else
    ⟨((estimate_duration_seconds req.prompt (input_lyrics req) req.instrumental : ℤ) : ℚ),
      .heuristic⟩

/-- Lines 435-443: if the duration is still unresolved and the pipeline
exposed a truthy `cot_duration`, a positive value is adopted with source
relabeled `lm_cot`. -/
def resolve_post_adopt (r : Resolution) (cot : Option ℚ) : Resolution :=
  if r.seconds ≤ 0 then
    match cot with
    | some c => if c ≠ 0 then (if 0 < c then ⟨c, .lm_cot⟩ else r) else r
    | none => r
  else r

/-- Lines 435-448: post-pipeline late override, then the final heuristic
fallback (lines 445-448) if the duration is still unresolved. -/
def resolve_post (req : GenRequest) (r : Resolution) (cot : Option ℚ) : Resolution :=
  if (resolve_post_adopt r cot).seconds ≤ 0 then
    ⟨((estimate_duration_seconds req.prompt (input_lyrics req) req.instrumental : ℤ) : ℚ),
      .heuristic⟩
  else resolve_post_adopt r cot

/-- Duration resolution across the whole of `generate`. -/
def resolve_duration (req : GenRequest) (cot : Option ℚ) : Resolution :=
  resolve_post req (resolve_pre req) cot

/-- The duration fields of the dict returned by `generate`
(lines 459-467). -/
structure GenResult where
  resolved_duration_seconds : ℚ
  duration_source : DurationSource
deriving DecidableEq

def generate_result (req : GenRequest) (cot : Option ℚ) : GenResult :=
  ⟨(resolve_duration req cot).seconds, (resolve_duration req cot).source⟩

/-- A concrete lyrics text with exactly 235 word tokens and 2 bracketed
section markers and no time expression. -/
def exampleLyrics235 : List Char :=
  ("[verse]\n".toList) ++ (List.replicate 233 (['a', ' '])).flatten ++ ("\n[chorus]".toList)

/-! ## Helper lemmas -/

lemma find_first_hint_range (m : Bool → List Char → Option (Nat × Nat)) :
    ∀ (fuel : Nat) (prevW : Bool) (s : List Char) (v : Nat),
      find_first_hint m fuel prevW s = some v → 10 ≤ v ∧ v ≤ 600 := by
  intro fuel
  induction fuel with
  | zero =>
    intro prevW s v h
    simp [find_first_hint] at h
  | succ n ih =>
    intro prevW s v h
    simp only [find_first_hint] at h
    cases hm : m prevW s with
    | some r =>
      simp only [hm] at h
      by_cases hr : 10 ≤ r.2 ∧ r.2 ≤ 600
      · rw [if_pos hr] at h
        injection h with h2
        subst h2
        exact hr
      · rw [if_neg hr] at h
        exact ih _ _ _ h
    | none =>
      simp only [hm] at h
      cases s with
      | nil => simp at h
      | cons c cs => exact ih _ _ _ h

lemma hintTier_range (m : Bool → List Char → Option (Nat × Nat)) (t : List Char) (v : Nat)
    (h : hintTier m t = some v) : 10 ≤ v ∧ v ≤ 600 := by
  unfold hintTier at h
  exact find_first_hint_range m _ _ _ _ h

lemma extract_hint_range (t : List Char) (v : Nat)
    (h : extract_duration_hint_seconds t = some v) : 10 ≤ v ∧ v ≤ 600 := by
  unfold extract_duration_hint_seconds at h
  by_cases ht : t = []
  · simp [ht] at h
  · rw [if_neg ht] at h
    cases h1 : hintTier matchMMSS (lowerText t) with
    | some w =>
      rw [h1] at h
      injection h with h2
      subst h2
      exact hintTier_range _ _ _ h1
    | none =>
      rw [h1] at h
      cases h2 : hintTier matchMIN (lowerText t) with
      | some w =>
        rw [h2] at h
        injection h with h3
        subst h3
        exact hintTier_range _ _ _ h2
      | none =>
        rw [h2] at h
        exact hintTier_range _ _ _ h

lemma word_count_estimate_bounds (p l : List Char) (i : Bool) :
    30 ≤ word_count_estimate_seconds p l i ∧ word_count_estimate_seconds p l i ≤ 240 := by
  simp only [word_count_estimate_seconds, clamp_30_240]
  omega

lemma estimate_bounds (p l : List Char) (i : Bool) :
    10 ≤ estimate_duration_seconds p l i ∧ estimate_duration_seconds p l i ≤ 600 := by
  have hb := word_count_estimate_bounds p l i
  cases hx : extract_duration_hint_seconds (p ++ '\n' :: l) with
  | some hint =>
    simp only [estimate_duration_seconds, hx]
    omega
  | none =>
    simp only [estimate_duration_seconds, hx]
    omega

lemma pyRound_le {q : ℚ} {n : ℤ} (h : q ≤ (n : ℚ)) : pyRound q ≤ n := by
  unfold pyRound
  have hfl : ((⌊q⌋ : ℤ) : ℚ) ≤ q := Int.floor_le q
  have hfn : ⌊q⌋ ≤ n := by
    have := Int.floor_le_floor h
    rwa [Int.floor_intCast] at this
  split_ifs with h1 h2 h3
  · exact hfn
  · have hlt : ((⌊q⌋ : ℤ) : ℚ) < (n : ℚ) := by linarith
    have : ⌊q⌋ < n := by exact_mod_cast hlt
    omega
  · exact hfn
  · have hlt : ((⌊q⌋ : ℤ) : ℚ) < (n : ℚ) := by linarith
    have : ⌊q⌋ < n := by exact_mod_cast hlt
    omega

lemma resolve_pre_deferred (req : GenRequest)
    (h : (resolve_pre req).source = DurationSource.audio_inferred ∨
         (resolve_pre req).source = DurationSource.lm_cot) :
    (resolve_pre req).seconds = -1 := by
  unfold resolve_pre at h ⊢
  split_ifs at h ⊢ <;> simp_all

lemma resolve_duration_pos (req : GenRequest) (cot : Option ℚ) :
    0 < (resolve_duration req cot).seconds := by
  have hb := estimate_bounds req.prompt (input_lyrics req) req.instrumental
  have hest : (0 : ℚ) <
      ((estimate_duration_seconds req.prompt (input_lyrics req) req.instrumental : ℤ) : ℚ) := by
    exact_mod_cast lt_of_lt_of_le (by norm_num : (0 : ℤ) < 10) hb.1
  unfold resolve_duration resolve_post
  split_ifs with h1
  · exact hest
  · exact not_le.mp h1

lemma resolve_post_adopt_pos_of_pos (r : Resolution) (cot : Option ℚ)
    (h : 0 < r.seconds) : resolve_post_adopt r cot = r := by
  unfold resolve_post_adopt
  rw [if_neg (not_le.mpr h)]

/-! ## Claim theorems -/

/-- C1: when the user duration is not positive, the resolver follows the
fixed precedence chain: audio context yields source `audio_inferred`
with no locally computed value (the `-1` sentinel); otherwise an
initialized LM stage yields `lm_cot`, again with no local value;
otherwise the source is `heuristic` and the seconds equal the local
heuristic estimate. -/
theorem auto_duration_precedence (req : GenRequest) (hd : req.duration ≤ 0) :
    ((req.reference_audio || req.src_audio) = true →
      resolve_pre req = ⟨-1, DurationSource.audio_inferred⟩) ∧
    ((req.reference_audio || req.src_audio) = false → req.lm_available = true →
      resolve_pre req = ⟨-1, DurationSource.lm_cot⟩) ∧
    ((req.reference_audio || req.src_audio) = false → req.lm_available = false →
      resolve_pre req =
        ⟨((estimate_duration_seconds req.prompt (input_lyrics req) req.instrumental : ℤ) : ℚ),
          DurationSource.heuristic⟩) := by
  have hnd : ¬ 0 < req.duration := by omega
  refine ⟨?_, ?_, ?_⟩
  · intro h1
    simp [resolve_pre, hnd, h1]
  · intro h1 h2
    simp [resolve_pre, hnd, h1, h2]
  · intro h1 h2
    simp [resolve_pre, hnd, h1, h2]

theorem auto_duration_precedence_witness :
    resolve_pre ⟨[], [], false, 0, true, false, false⟩ =
      ⟨-1, DurationSource.audio_inferred⟩ :=
  (auto_duration_precedence ⟨[], [], false, 0, true, false, false⟩ (by decide)).1 (by decide)

/-- C2: a positive user duration is used verbatim with source `user`:
the pre-pipeline resolution, the end-to-end resolution and the surfaced
result fields all carry exactly that value, and the heuristic source is
never produced. -/
theorem user_duration_verbatim (req : GenRequest) (cot : Option ℚ) (hd : 0 < req.duration) :
    resolve_pre req = ⟨(req.duration : ℚ), DurationSource.user⟩ ∧
    resolve_duration req cot = ⟨(req.duration : ℚ), DurationSource.user⟩ ∧
    generate_result req cot = ⟨(req.duration : ℚ), DurationSource.user⟩ ∧
    (resolve_duration req cot).source ≠ DurationSource.heuristic := by
  have h1 : resolve_pre req = ⟨(req.duration : ℚ), DurationSource.user⟩ := by
    simp [resolve_pre, hd]
  have hq : (0 : ℚ) < (req.duration : ℚ) := by exact_mod_cast hd
  have hns : ¬ ((req.duration : ℚ) ≤ 0) := not_le.mpr hq
  have h2 : resolve_duration req cot = ⟨(req.duration : ℚ), DurationSource.user⟩ := by
    have ha : resolve_post_adopt (resolve_pre req) cot = resolve_pre req :=
      resolve_post_adopt_pos_of_pos _ _ (by rw [h1]; exact hq)
    rw [h1] at ha
    simp [resolve_duration, resolve_post, h1, ha, hns]
  refine ⟨h1, h2, ?_, ?_⟩
  · simp [generate_result, h2]
  · simp [h2]

theorem user_duration_verbatim_witness :
    resolve_duration ⟨[], [], false, 42, true, true, true⟩ (some 7) =
      ⟨(42 : ℚ), DurationSource.user⟩ :=
  (user_duration_verbatim ⟨[], [], false, 42, true, true, true⟩ (some 7) (by decide)).2.1

/-- C3: the heuristic estimator always returns a value in `[10, 600]`;
when a text hint is found the result is the hint rounded to the nearest
multiple of 5 and clamped to `[10, 600]`, and when no hint is found the
result lies in `[30, 240]`. -/
theorem heuristic_output_bounds (p l : List Char) (i : Bool) :
    (10 ≤ estimate_duration_seconds p l i ∧ estimate_duration_seconds p l i ≤ 600) ∧
    (∀ h : Nat, extract_duration_hint_seconds (p ++ '\n' :: l) = some h →
      estimate_duration_seconds p l i = max 10 (min 600 (pyRound ((h : ℚ) / 5) * 5))) ∧
    (extract_duration_hint_seconds (p ++ '\n' :: l) = none →
      30 ≤ estimate_duration_seconds p l i ∧ estimate_duration_seconds p l i ≤ 240) := by
  refine ⟨estimate_bounds p l i, ?_, ?_⟩
  · intro h hx
    simp only [estimate_duration_seconds, hx]
  · intro hx
    simp only [estimate_duration_seconds, hx]
    exact word_count_estimate_bounds p l i

theorem heuristic_output_bounds_witness :
    (10 ≤ estimate_duration_seconds ("3:45".toList) [] false ∧
      estimate_duration_seconds ("3:45".toList) [] false ≤ 600) ∧
    estimate_duration_seconds ("3:45".toList) [] false
      = max 10 (min 600 (pyRound ((225 : ℚ) / 5) * 5)) :=
  ⟨(heuristic_output_bounds ("3:45".toList) [] false).1,
   (heuristic_output_bounds ("3:45".toList) [] false).2.1 225 (by decide)⟩

/-- C4: when the pre-pipeline resolution deferred (source
`audio_inferred` or `lm_cot`, no numeric value attached), a positive
pipeline `cot_duration` is adopted with source relabeled `lm_cot`;
otherwise the heuristic estimator runs as the final fallback; and the
final resolved duration is always positive. -/
theorem late_override (req : GenRequest) (cot : Option ℚ)
    (h : (resolve_pre req).source = DurationSource.audio_inferred ∨
         (resolve_pre req).source = DurationSource.lm_cot) :
    (∀ c : ℚ, cot = some c → 0 < c →
      resolve_duration req cot = ⟨c, DurationSource.lm_cot⟩) ∧
    ((cot = none ∨ ∃ c, cot = some c ∧ c ≤ 0) →
      resolve_duration req cot =
        ⟨((estimate_duration_seconds req.prompt (input_lyrics req) req.instrumental : ℤ) : ℚ),
          DurationSource.heuristic⟩) ∧
    0 < (resolve_duration req cot).seconds := by
  have hs := resolve_pre_deferred req h
  have hsle : (resolve_pre req).seconds ≤ 0 := by
    rw [hs]
    norm_num
  refine ⟨?_, ?_, resolve_duration_pos req cot⟩
  · intro c hc hcpos
    have hcne : c ≠ 0 := ne_of_gt hcpos
    have ha : resolve_post_adopt (resolve_pre req) cot = ⟨c, DurationSource.lm_cot⟩ := by
      subst hc
      simp [resolve_post_adopt, hsle, hcne, hcpos]
    simp [resolve_duration, resolve_post, ha, not_le.mpr hcpos]
  · intro hcase
    have ha : resolve_post_adopt (resolve_pre req) cot = resolve_pre req := by
      rcases hcase with hnone | ⟨c, hc, hcle⟩
      · subst hnone
        simp [resolve_post_adopt, hsle]
      · subst hc
        by_cases hc0 : c = 0
        · subst hc0
          simp [resolve_post_adopt, hsle]
        · simp [resolve_post_adopt, hsle, hc0, not_lt.mpr hcle]
    simp [resolve_duration, resolve_post, ha, hsle]

theorem late_override_witness :
    resolve_duration ⟨[], [], false, 0, false, false, true⟩ (some 120) =
      ⟨120, DurationSource.lm_cot⟩ :=
  (late_override ⟨[], [], false, 0, false, false, true⟩ (some 120)
    (Or.inr (by decide))).1 120 rfl (by norm_num)

/-- C5: a text containing `3:45` yields hint 225 and estimate 225; the
`mm:ss` tier has priority over the minutes tier, which has priority over
the bare-seconds tier (scanning the lowercased text); and a found hint
short-circuits word-count estimation. -/
theorem mmss_hint_priority :
    (estimate_duration_seconds ("3:45".toList) [] false = 225) ∧
    (extract_duration_hint_seconds ("3:45".toList) = some 225) ∧
    (extract_duration_hint_seconds ("2 MIN 30 SEC".toList) = some 150) ∧
    (∀ t v, t ≠ [] → hintTier matchMMSS (lowerText t) = some v →
      extract_duration_hint_seconds t = some v) ∧
    (∀ t v, t ≠ [] → hintTier matchMMSS (lowerText t) = none →
      hintTier matchMIN (lowerText t) = some v →
      extract_duration_hint_seconds t = some v) ∧
    (∀ t, t ≠ [] → hintTier matchMMSS (lowerText t) = none →
      hintTier matchMIN (lowerText t) = none →
      extract_duration_hint_seconds t = hintTier matchBARE (lowerText t)) ∧
    (∀ (p l : List Char) (i : Bool) (h : Nat),
      extract_duration_hint_seconds (p ++ '\n' :: l) = some h →
      estimate_duration_seconds p l i = max 10 (min 600 (pyRound ((h : ℚ) / 5) * 5))) := by
  refine ⟨?_, by decide, by decide, ?_, ?_, ?_, ?_⟩
  · have hx : extract_duration_hint_seconds (("3:45".toList) ++ '\n' :: ([] : List Char)) =
        some 225 := by decide
    simp only [estimate_duration_seconds, hx]
    norm_num [pyRound]
  · intro t v ht h1
    simp [extract_duration_hint_seconds, ht, h1]
  · intro t v ht h1 h2
    simp [extract_duration_hint_seconds, ht, h1, h2]
  · intro t ht h1 h2
    simp [extract_duration_hint_seconds, ht, h1, h2]
  · intro p l i h hx
    simp only [estimate_duration_seconds, hx]

theorem mmss_hint_priority_witness :
    estimate_duration_seconds ("3:45".toList) [] false
      = max 10 (min 600 (pyRound ((225 : ℚ) / 5) * 5)) :=
  mmss_hint_priority.2.2.2.2.2.2 ("3:45".toList) [] false 225 (by decide)

/-- C6: malformed or out-of-range time expressions are silently
skipped: `99:99` matches no pattern, an out-of-range match (`0:05`) is
skipped with scanning continuing to later matches, a tier with no valid
match falls through to lower-priority tiers (`9:99 90 sec`), extraction
only ever returns values in `[10, 600]`, and with no hint at all the
estimator falls through to word-count estimation. -/
theorem malformed_hints_rejected :
    (extract_duration_hint_seconds ("99:99".toList) = none) ∧
    (extract_duration_hint_seconds ("0:05 3:45".toList) = some 225) ∧
    (extract_duration_hint_seconds ("9:99 90 sec".toList) = some 90) ∧
    (∀ t v, extract_duration_hint_seconds t = some v → 10 ≤ v ∧ v ≤ 600) ∧
    (∀ (p l : List Char) (i : Bool),
      extract_duration_hint_seconds (p ++ '\n' :: l) = none →
      estimate_duration_seconds p l i = word_count_estimate_seconds p l i) := by
  refine ⟨by decide, by decide, by decide, extract_hint_range, ?_⟩
  intro p l i hx
  simp only [estimate_duration_seconds, hx]

theorem malformed_hints_rejected_witness :
    (10 ≤ 225 ∧ 225 ≤ 600) ∧
    estimate_duration_seconds ("99:99".toList) [] false =
      word_count_estimate_seconds ("99:99".toList) [] false :=
  ⟨malformed_hints_rejected.2.2.2.1 ("0:05 3:45".toList) 225 malformed_hints_rejected.2.1,
   malformed_hints_rejected.2.2.2.2 ("99:99".toList) [] false (by decide)⟩

/-- C7: for lyrics with exactly 235 word tokens and 2 section markers,
no text hint, a keyword-free prompt and `instrumental = false`, the
estimator computes `235 / 2.35 + 18 + 4 * 2` and returns exactly 125
after rounding to the nearest multiple of 5 and clamping to `[30, 240]`. -/
theorem wordcount_estimate_example (p l : List Char)
    (hw : lyric_word_count l = 235) (hs : section_count l = 2)
    (hh : extract_duration_hint_seconds (p ++ '\n' :: l) = none)
    (hshort : contains_any (lowerText p) short_keywords = false)
    (hlong : contains_any (lowerText p) long_keywords = false) :
    estimate_duration_seconds p l false = 125 := by
  simp only [estimate_duration_seconds, hh]
  simp only [word_count_estimate_seconds, hw, hs, hshort, hlong]
  norm_num [base_estimate, keyword_adjusted, clamp_30_240, pyRound, hshort, hlong]

set_option maxRecDepth 4000 in
theorem wordcount_estimate_example_witness :
    estimate_duration_seconds [] exampleLyrics235 false = 125 :=
  wordcount_estimate_example [] exampleLyrics235 (by decide) (by decide) (by decide)
    (by decide) (by decide)

/-- C8: for prompt "ambient loop", empty lyrics, instrumental, the
estimator returns exactly 60; and in general the loop cap
`min(estimate, 60)` applies exactly when the prompt contains "loop" and
the lyric word count is zero (in which case the result is at most 60). -/
theorem loop_cap :
    (estimate_duration_seconds ("ambient loop".toList) [] true = 60) ∧
    (∀ (p l : List Char) (i : Bool),
      (isSubstring ("loop".toList) (lowerText p) && (lyric_word_count l == 0)) = true →
      word_count_estimate_seconds p l i =
        clamp_30_240 (pyRound
          (min (keyword_adjusted (lowerText p)
              (base_estimate (lyric_word_count l) (section_count l) i)) 60 / 5) * 5) ∧
      word_count_estimate_seconds p l i ≤ 60) ∧
    (∀ (p l : List Char) (i : Bool),
      (isSubstring ("loop".toList) (lowerText p) && (lyric_word_count l == 0)) = false →
      word_count_estimate_seconds p l i =
        clamp_30_240 (pyRound
          (keyword_adjusted (lowerText p)
              (base_estimate (lyric_word_count l) (section_count l) i) / 5) * 5)) := by
  refine ⟨?_, ?_, ?_⟩
  · have hx : extract_duration_hint_seconds (("ambient loop".toList) ++ '\n' :: ([] : List Char)) =
        none := by decide
    simp only [estimate_duration_seconds, hx]
    have h1 : lyric_word_count ([] : List Char) = 0 := rfl
    have h2 : section_count ([] : List Char) = 0 := rfl
    have h3 : contains_any (lowerText ("ambient loop".toList)) short_keywords = false := by decide
    have h4 : contains_any (lowerText ("ambient loop".toList)) long_keywords = false := by decide
    have h5 : isSubstring ("loop".toList) (lowerText ("ambient loop".toList)) = true := by decide
    simp only [word_count_estimate_seconds, keyword_adjusted, h1, h2, h3, h4, h5]
    norm_num [base_estimate, clamp_30_240, pyRound]
  · intro p l i hc
    have heq : word_count_estimate_seconds p l i =
        clamp_30_240 (pyRound
          (min (keyword_adjusted (lowerText p)
              (base_estimate (lyric_word_count l) (section_count l) i)) 60 / 5) * 5) := by
      simp only [word_count_estimate_seconds, hc, if_true]
    refine ⟨heq, ?_⟩
    rw [heq]
    have hm : min (keyword_adjusted (lowerText p)
        (base_estimate (lyric_word_count l) (section_count l) i)) 60 / 5 ≤ ((12 : ℤ) : ℚ) := by
      have h60 : min (keyword_adjusted (lowerText p)
          (base_estimate (lyric_word_count l) (section_count l) i)) 60 ≤ 60 :=
        min_le_right _ _
      push_cast
      linarith
    have hr := pyRound_le hm
    unfold clamp_30_240
    omega
  · intro p l i hc
    simp only [word_count_estimate_seconds, hc, Bool.false_eq_true, if_false]

theorem loop_cap_witness :
    word_count_estimate_seconds ("loop".toList) [] false ≤ 60 :=
  (loop_cap.2.1 ("loop".toList) [] false (by decide)).2

/-- C9: for prompt "epic cinematic anthem" (three matching
length-increasing keywords), zero lyric words, `instrumental = false`
and no hint, the estimator returns exactly 105 = 75 + 30: the +30 (and
likewise the -20) adjustment is applied at most once per request, by
case-insensitive substring matching on the prompt. -/
theorem keyword_adjust_once :
    (estimate_duration_seconds ("epic cinematic anthem".toList) [] false = 105) ∧
    (estimate_duration_seconds ("EPIC".toList) [] false = 105) ∧
    (∀ (pl : List Char) (e : ℚ), keyword_adjusted pl e =
      e + (if contains_any pl short_keywords then -20 else 0)
        + (if contains_any pl long_keywords then 30 else 0)) := by
  refine ⟨?_, ?_, ?_⟩
  · have hx : extract_duration_hint_seconds
        (("epic cinematic anthem".toList) ++ '\n' :: ([] : List Char)) = none := by decide
    simp only [estimate_duration_seconds, hx]
    have h1 : lyric_word_count ([] : List Char) = 0 := rfl
    have h2 : section_count ([] : List Char) = 0 := rfl
    have h3 : contains_any (lowerText ("epic cinematic anthem".toList)) short_keywords =
        false := by decide
    have h4 : contains_any (lowerText ("epic cinematic anthem".toList)) long_keywords =
        true := by decide
    have h5 : isSubstring ("loop".toList) (lowerText ("epic cinematic anthem".toList)) =
        false := by decide
    simp only [word_count_estimate_seconds, keyword_adjusted, h1, h2, h3, h4, h5]
    norm_num [base_estimate, clamp_30_240, pyRound]
  · have hx : extract_duration_hint_seconds
        (("EPIC".toList) ++ '\n' :: ([] : List Char)) = none := by decide
    simp only [estimate_duration_seconds, hx]
    have h1 : lyric_word_count ([] : List Char) = 0 := rfl
    have h2 : section_count ([] : List Char) = 0 := rfl
    have h3 : contains_any (lowerText ("EPIC".toList)) short_keywords = false := by decide
    have h4 : contains_any (lowerText ("EPIC".toList)) long_keywords = true := by decide
    have h5 : isSubstring ("loop".toList) (lowerText ("EPIC".toList)) = false := by decide
    simp only [word_count_estimate_seconds, keyword_adjusted, h1, h2, h3, h4, h5]
    norm_num [base_estimate, clamp_30_240, pyRound]
  · intro pl e
    unfold keyword_adjusted
    split_ifs <;> ring

/-- C10: when `instrumental` is set (or the lyrics are empty), the
lyrics argument is replaced by the empty string before duration
resolution: the resolved duration is then independent of the lyrics
text, so time hints and word tokens inside the lyrics are ignored. -/
theorem instrumental_ignores_lyrics :
    (∀ req : GenRequest, req.instrumental = true → input_lyrics req = []) ∧
    (∀ req : GenRequest, req.lyrics = [] → input_lyrics req = []) ∧
    (∀ (req : GenRequest) (cot : Option ℚ) (l2 : List Char),
      req.instrumental = true →
      resolve_duration req cot = resolve_duration { req with lyrics := l2 } cot) := by
  have key : ∀ req : GenRequest, req.instrumental = true → input_lyrics req = [] := by
    intro req h
    simp [input_lyrics, h]
  refine ⟨key, ?_, ?_⟩
  · intro req h
    simp [input_lyrics, h]
  · intro req cot l2 h
    have h1 := key req h
    have h2 := key { req with lyrics := l2 } h
    unfold resolve_duration resolve_post resolve_post_adopt resolve_pre
    rw [h1, h2]

theorem instrumental_ignores_lyrics_witness :
    resolve_duration ⟨("p".toList), ("3:45".toList), true, 0, false, false, false⟩ none =
      resolve_duration ⟨("p".toList), [], true, 0, false, false, false⟩ none :=
  instrumental_ignores_lyrics.2.2
    ⟨("p".toList), ("3:45".toList), true, 0, false, false, false⟩ none [] rfl

end SimpleGenerate
